import Mathlib

/-!
Shallow embedding of `management/editor/elements.go` from the ponzu
repository: the HTML form-widget rendering functions (`Input`, `Textarea`,
`Timestamp`, `File`, `Richtext`, `Select`, `Checkbox`, `Tags`), the DOM
string builders, and the reflection helpers (`tagNameFromStructField`,
`tagNameFromStructFieldMulti`, `valueFromStructField`).

Modelling choices, mirroring the Go semantics:
* A content struct (the `interface\x7b\x7d` argument `p`, always a pointer to a
  struct) is a list of fields, each with its Go name, its optional `json`
  struct tag, and its current dynamic value.
* A `reflect.Value` is `GoValue`: a string, an int64 (`Int`), a `[]string`,
  or the zero `reflect.Value` that `FieldByName` yields for a missing field.
* A Go `map[string]string` is a `List (String × String)`: the sequence of
  key/value pairs one `for k, v := range m` loop visits.  Go fixes the
  contents but not the iteration order, so the list carries both.
* A `panic` is `Except.error` with the panic message; machine integers are
  unbounded `Int` (no arithmetic is performed on them, they are only
  compared with 0 and printed).
* `[]byte` results are `String`s (Go strings and `[]byte` here are UTF-8;
  byte-sequence equality coincides with string equality).
* Each rendering call returns the produced bytes together with the
  attribute map as the call leaves it, because Go passes maps by reference
  and some widgets write to the caller's map.
-/

namespace Ponzu

/-- A Go `reflect.Value` as this package uses them: the dynamic value held by
a struct field (string, int64 or []string), or the zero `reflect.Value` that
`FieldByName` returns when no field with the requested name exists. -/
inductive GoValue where
  | str (s : String)
  | int (n : Int)
  | strList (xs : List String)
  | invalid
deriving DecidableEq, Repr

/-- One struct field of a content type: its Go field name, its `json` struct
tag (`none` when the field carries no such tag), and its current value. -/
structure GoField where
  name : String
  jsonTag : Option String
  value : GoValue
deriving DecidableEq, Repr

/-- A content struct (what the `interface\x7b\x7d` argument `p` points to): its
fields in declaration order. -/
abbrev GoStruct := List GoField

/-- A Go `map[string]string` together with one fixed range-iteration order:
the sequence of key/value pairs a `for k, v := range m` loop visits. -/
abbrev GoMap := List (String × String)

/-- Reading `m[k]` from a Go map: the stored value, or `""` when the key is
absent. -/
def mapGet (m : GoMap) (k : String) : String :=
  match m.find? (fun kv => kv.1 == k) with
  | some kv => kv.2
  | none => ""

/-- Writing `m[k] = v` to a Go map: replaces the value under an existing key
in place, otherwise adds the new pair (placed at the end of the modelled
iteration order). -/
def mapSet (m : GoMap) (k v : String) : GoMap :=
  if m.any (fun kv => kv.1 == k) then
    m.map (fun kv => if kv.1 == k then (kv.1, v) else kv)
  else m ++ [(k, v)]

/-- `reflect.TypeOf(post).Elem().FieldByName(name)` and
`reflect.Indirect(reflect.ValueOf(post)).FieldByName(name)`: the first field
carrying the given name (Go struct field names are unique). -/
def findField (p : GoStruct) (name : String) : Option GoField :=
  p.find? (fun f => f.name == name)

/-- `valueFromStructField` (elements.go:538): the reflected value of the named
field; for a missing field Go yields the zero `reflect.Value`. -/
def valueFromStructField (name : String) (post : GoStruct) : GoValue :=
  match findField post name with
  | some f => f.value
  | none => GoValue.invalid

/-- Alias for `String`, usable inside the `GoValue` namespace where the
method name `GoValue.String` (after `reflect.Value.String`) shadows the
builtin type name. -/
abbrev Str := String

/-- Alias for `Int`, usable inside the `GoValue` namespace where the method
name `GoValue.Int` (after `reflect.Value.Int`) shadows the builtin type
name. -/
abbrev IntZ := Int

/-- `reflect.Value.String()`: the string held by a string value; on every
other kind it does not panic but returns a `"<T Value>"` placeholder. -/
def GoValue.String : GoValue → Str
  | .str s => s
  | .int _ => "<int64 Value>"
  | .strList _ => "<[]string Value>"
  | .invalid => "<invalid Value>"

/-- `reflect.Value.Int()`: the integer held by an integer value; panics on
every other kind. -/
def GoValue.Int : GoValue → Except Str IntZ
  | .int n => Except.ok n
  | .str _ => Except.error "reflect: call of reflect.Value.Int on string Value"
  | .strList _ => Except.error "reflect: call of reflect.Value.Int on slice Value"
  | .invalid => Except.error "reflect: call of reflect.Value.Int on zero Value"

/-- The `v.Slice(0, v.Len()).Interface().([]string)` step of `Checkbox` and
`Tags`: `Len` panics unless the value is a slice or a string, and the type
assertion to `[]string` then panics unless the value is a `[]string`. -/
def GoValue.stringSlice : GoValue → Except Str (List Str)
  | .strList xs => Except.ok xs
  | .str _ => Except.error "interface conversion: interface \x7b\x7d is string, not []string"
  | .int _ => Except.error "reflect: call of reflect.Value.Len on int64 Value"
  | .invalid => Except.error "reflect: call of reflect.Value.Len on zero Value"

/-- `tagNameFromStructField` (elements.go:509): the `json` struct tag of the
named field; the empty name short-circuits to `""`, a missing field or a
missing tag panics. -/
def tagNameFromStructField (name : String) (post : GoStruct) : Except String String :=
  if name = "" then Except.ok name
  else
    match findField post name with
    | none =>
        Except.error ("Couldn't get struct field for: " ++ name ++
          ". Make sure you pass the right field name to editor field elements.")
    | some field =>
        match field.jsonTag with
        | none =>
            Except.error ("Couldn't get json struct tag for: " ++ name ++
              ". Struct fields for content types must have 'json' tags.")
        | some tag => Except.ok tag

/-- Decimal digits of `n`, most significant first, by structural recursion on
a fuel bound (`n` itself always suffices, since `n / 10` drops below any
positive `n`). -/
def natDigitsGo : Nat → Nat → List Char
  | n, 0 => [Nat.digitChar n]
  | n, fuel + 1 =>
      if n < 10 then [Nat.digitChar n]
      else natDigitsGo (n / 10) fuel ++ [Nat.digitChar (n % 10)]

/-- Decimal digits of a natural number, most significant first. -/
def natDigits (n : Nat) : List Char :=
  natDigitsGo n n

/-- Base-10 numeral of a natural number: `fmt.Sprintf("%d", n)` for a
nonnegative value. -/
def natToDecimal (n : Nat) : String :=
  String.mk (natDigits n)

/-- `fmt.Sprintf("%d", n)` for an int64 value. -/
def intToDecimal (n : Int) : String :=
  if n < 0 then "-" ++ natToDecimal n.natAbs else natToDecimal n.toNat

/-- `tagNameFromStructFieldMulti` (elements.go:532): the field's tag with the
loop index appended, `tag.i`, as gorilla/schema expects multi-value form
names. Both call sites count `i` up from 0, so the index is a `Nat`. -/
def tagNameFromStructFieldMulti (name : String) (i : Nat) (post : GoStruct) :
    Except String String :=
  (tagNameFromStructField name post).map (fun tag => tag ++ "." ++ natToDecimal i)

/-- `html.EscapeString`, per character: each of the five special characters
becomes its HTML entity, every other character is unchanged. -/
def escapeChar (c : Char) : List Char :=
  if c = '&' then "&amp;".data
  else if c = '\'' then "&#39;".data
  else if c = '<' then "&lt;".data
  else if c = '>' then "&gt;".data
  else if c = '"' then "&#34;".data
  else [c]

/-- `html.EscapeString` over a whole string. -/
def escapeString (s : String) : String :=
  String.mk ((s.data.map escapeChar).flatten)

/-- `strings.Join(strings.Split(s, " "), "-")`: splitting on the
single-character separator `" "` and rejoining with `"-"` replaces every
space by a dash, so it is modelled as the per-character replacement. -/
def dashed (s : String) : String :=
  String.mk (s.data.map (fun c => if c = ' ' then '-' else c))

/-- The per-widget `element` struct (elements.go:11). `viewBuf` is omitted:
every construction site starts it empty and the `dom*` functions below
return its final contents. -/
structure element where
  TagName : String
  Attrs : GoMap
  Name : String
  label : String
  data : String
deriving DecidableEq, Repr

/-- The `for attr, value := range e.Attrs` loops of the `dom*` functions:
each pair rendered as `attr="value" `, in iteration order. -/
def attrsHTML (attrs : GoMap) : String :=
  String.join (attrs.map (fun kv => kv.1 ++ "=\"" ++ kv.2 ++ "\" "))

/-- `domElementSelfClose` (elements.go:402). -/
def domElementSelfClose (e : element) : String :=
  "<div class=\"input-field col s12\">" ++
    (if e.label ≠ "" then
      "<label class=\"active\" for=\"" ++ dashed e.label ++ "\">" ++ e.label ++ "</label>"
    else "") ++
    "<" ++ e.TagName ++ " value=\"" ++ (escapeString e.data ++ "\" ") ++
    attrsHTML e.Attrs ++
    (" name=\"" ++ e.Name ++ "\"") ++ " />" ++ "</div>"

/-- `domElementCheckbox` (elements.go:422). -/
def domElementCheckbox (e : element) : String :=
  "<p class=\"col s6\">" ++
    ("<" ++ e.TagName ++ " ") ++
    attrsHTML e.Attrs ++
    (" name=\"" ++ e.Name ++ "\"") ++ " /> " ++
    (if e.label ≠ "" then
      "<label for=\"" ++ dashed e.label ++ "\">" ++ e.label ++ "</label>"
    else "") ++ "</p>"

/-- `domElement` (elements.go:439). -/
def domElement (e : element) : String :=
  "<div class=\"input-field col s12\">" ++
    (if e.label ≠ "" then
      "<label class=\"active\" for=\"" ++ dashed e.label ++ "\">" ++ e.label ++ "</label>"
    else "") ++
    ("<" ++ e.TagName ++ " ") ++
    attrsHTML e.Attrs ++
    (" name=\"" ++ e.Name ++ "\"") ++ " >" ++
    escapeString e.data ++
    ("</" ++ e.TagName ++ ">") ++ "</div>"

/-- `domElementWithChildrenSelect` (elements.go:460). -/
def domElementWithChildrenSelect (e : element) (children : List element) : String :=
  "<div class=\"input-field col s6\">" ++
    ("<" ++ e.TagName ++ " ") ++
    attrsHTML e.Attrs ++
    (" name=\"" ++ e.Name ++ "\"") ++ " >" ++
    String.join (children.map domElement) ++
    ("</" ++ e.TagName ++ ">") ++
    (if e.label ≠ "" then "<label class=\"active\">" ++ e.label ++ "</label>" else "") ++
    "</div>"

/-- `domElementWithChildrenCheckbox` (elements.go:486). -/
def domElementWithChildrenCheckbox (e : element) (children : List element) : String :=
  ("<" ++ e.TagName ++ " ") ++
    attrsHTML e.Attrs ++
    " >" ++
    (if e.label ≠ "" then "<label class=\"active\">" ++ e.label ++ "</label>" else "") ++
    String.join (children.map domElementCheckbox) ++
    ("</" ++ e.TagName ++ ">" ++ "<div class=\"clear padding\">&nbsp;</div>")

/-- `newElement` (elements.go:544): panics exactly when the tag lookup does. -/
def newElement (tagName label fieldName : String) (p : GoStruct) (attrs : GoMap) :
    Except String element :=
  (tagNameFromStructField fieldName p).map (fun n =>
    { TagName := tagName, Attrs := attrs, Name := n, label := label,
      data := (valueFromStructField fieldName p).String })

/-- `Input` (elements.go:24). The second component of every rendering
function's result is the caller's attribute map as the call leaves it. -/
def Input (fieldName : String) (p : GoStruct) (attrs : GoMap) :
    Except String (String × GoMap) :=
  (newElement "input" (mapGet attrs "label") fieldName p attrs).map
    (fun e => (domElementSelfClose e, attrs))

/-- `Textarea` (elements.go:34). -/
def Textarea (fieldName : String) (p : GoStruct) (attrs : GoMap) :
    Except String (String × GoMap) :=
  (newElement "textarea" (mapGet attrs "label") fieldName p attrs).map
    (fun e => (domElement e, attrs))

/-- `Timestamp` (elements.go:44): reads the field as an int64 (an empty value
for 0, its decimal numeral otherwise), then builds the element by hand. -/
def Timestamp (fieldName : String) (p : GoStruct) (attrs : GoMap) :
    Except String (String × GoMap) := do
  let n ← (valueFromStructField fieldName p).Int
  let data := if n = 0 then "" else intToDecimal n
  let tag ← tagNameFromStructField fieldName p
  Except.ok (domElementSelfClose
    { TagName := "input", Attrs := attrs, Name := tag,
      label := mapGet attrs "label", data := data }, attrs)

/-- The `tmpl` raw string of `File` (elements.go:71), with its interpolation
points (`name`, `attrs["label"]`, the field's value) as parameters. -/
def fileTmpl (name label value : String) : String :=
  "<div class=\"file-input " ++ name ++ " input-field col s12\">\n\t\t\t<label class=\"active\">" ++ label ++ "</label>\n\t\t\t<div class=\"file-field input-field\">\n\t\t\t\t<div class=\"btn\">\n\t\t\t\t\t<span>Upload</span>\n\t\t\t\t\t<input class=\"upload\" type=\"file\">\n\t\t\t\t</div>\n\t\t\t\t<div class=\"file-path-wrapper\">\n\t\t\t\t\t<input class=\"file-path validate\" placeholder=\"" ++ label ++ "\" type=\"text\">\n\t\t\t\t</div>\n\t\t\t</div>\n\t\t\t<div class=\"preview\"><div class=\"img-clip\"></div></div>\t\t\t\n\t\t\t<input class=\"store " ++ name ++ "\" type=\"hidden\" name=\"" ++ name ++ "\" " ++ ("value=\"" ++ value ++ "\" />") ++ "\n\t\t</div>"

/-- The `script` raw string of `File` (elements.go:87). -/
def fileScript (name : String) : String :=
  "<script>\n\t\t\t$(function() \x7b\n\t\t\t\tvar $file = $('.file-input." ++ name ++ "'),\n\t\t\t\t\tupload = $file.find('input.upload'),\n\t\t\t\t\tstore = $file.find('input.store'),\n\t\t\t\t\tpreview = $file.find('.preview'),\n\t\t\t\t\tclip = preview.find('.img-clip'),\n\t\t\t\t\treset = document.createElement('div'),\n\t\t\t\t\timg = document.createElement('img'),\n\t\t\t\t\tuploadSrc = store.val();\n\t\t\t\t\tpreview.hide();\n\t\t\t\t\n\t\t\t\t// when " ++ name ++ " input changes (file is selected), remove\n\t\t\t\t// the 'name' and 'value' attrs from the hidden store input.\n\t\t\t\t// add the 'name' attr to " ++ name ++ " input\n\t\t\t\tupload.on('change', function(e) \x7b\n\t\t\t\t\tresetImage();\n\t\t\t\t\x7d);\n\n\t\t\t\tif (uploadSrc.length > 0) \x7b\n\t\t\t\t\t$(img).attr('src', store.val());\n\t\t\t\t\tclip.append(img);\n\t\t\t\t\tpreview.show();\n\n\t\t\t\t\t$(reset).addClass('reset " ++ name ++ " btn waves-effect waves-light grey');\n\t\t\t\t\t$(reset).html('<i class=\"material-icons tiny\">clear<i>');\n\t\t\t\t\t$(reset).on('click', function(e) \x7b\n\t\t\t\t\t\te.preventDefault();\n\t\t\t\t\t\tpreview.animate(\x7b\"opacity\": 0.1\x7d, 200, function() \x7b\n\t\t\t\t\t\t\tpreview.slideUp(250, function() \x7b\n\t\t\t\t\t\t\t\tresetImage();\n\t\t\t\t\t\t\t\x7d);\n\t\t\t\t\t\t\x7d)\n\t\t\t\t\t\t\n\t\t\t\t\t\x7d);\n\t\t\t\t\tclip.append(reset);\n\t\t\t\t\x7d\n\n\t\t\t\tfunction resetImage() \x7b\n\t\t\t\t\tstore.val('');\n\t\t\t\t\tstore.attr('name', '');\n\t\t\t\t\tupload.attr('name', '" ++ name ++ "');\n\t\t\t\t\tclip.empty();\n\t\t\t\t\x7d\n\t\t\t\x7d);\t\n\t\t</script>"

/-- `File` (elements.go:69): an upload widget whose hidden `store` input
carries the field's current value, embedded without escaping. -/
def File (fieldName : String) (p : GoStruct) (attrs : GoMap) :
    Except String (String × GoMap) := do
  let name ← tagNameFromStructField fieldName p
  Except.ok (fileTmpl name (mapGet attrs "label") (valueFromStructField fieldName p).String
    ++ fileScript name, attrs)

/-- The `script` raw string of `Richtext` (elements.go:169). -/
def richtextScript (fieldName placeholder : String) : String :=
  "\n\t<script>\n\t\t$(function() \x7b \n\t\t\tvar _editor = $('.richtext." ++ fieldName ++ "');\n\t\t\tvar hidden = $('.richtext-value." ++ fieldName ++ "');\n\n\t\t\t_editor.materialnote(\x7b\n\t\t\t\theight: 250,\n\t\t\t\tplaceholder: '" ++ placeholder ++ "',\n\t\t\t\ttoolbar: [\n\t\t\t\t\t['style', ['bold', 'italic', 'underline', 'clear']],\n\t\t\t\t\t['font', ['strikethrough', 'superscript', 'subscript']],\n\t\t\t\t\t['fontsize', ['fontsize']],\n\t\t\t\t\t['color', ['color']],\n\t\t\t\t\t['insert', ['link', 'picture', 'video', 'hr']],\t\t\t\t\t\n\t\t\t\t\t['para', ['ul', 'ol', 'paragraph']],\n\t\t\t\t\t['height', ['height']],\n\t\t\t\t\t['misc', ['codeview']]\n\t\t\t\t],\n\t\t\t\t// intercept file insertion, upload and insert img with new src\n\t\t\t\tonImageUpload: function(files) \x7b\n\t\t\t\t\tvar data = new FormData();\n\t\t\t\t\tdata.append(\"file\", files[0]);\n\t\t\t\t\t$.ajax(\x7b\n\t\t\t\t\t\tdata: data,\n\t\t\t\t\t\ttype: 'POST',\n\t\t\t\t\t\turl: '/admin/edit/upload',\n\t\t\t\t\t\tcache: false,\n\t\t\t\t\t\tcontentType: false,\n\t\t\t\t\t\tprocessData: false,\n\t\t\t\t\t\tsuccess: function(resp) \x7b\n\t\t\t\t\t\t\tvar img = document.createElement('img');\n\t\t\t\t\t\t\timg.setAttribute('src', resp.data[0].url);\n\t\t\t\t\t\t\t_editor.materialnote('insertNode', img);\n\t\t\t\t\t\t\x7d,\n\t\t\t\t\t\terror: function(xhr, status, err) \x7b\n\t\t\t\t\t\t\tconsole.log(status, err);\n\t\t\t\t\t\t\x7d\n\t\t\t\t\t\x7d)\n\n\t\t\t\t\x7d\n\t\t\t\x7d);\n\n\t\t\t// inject content into editor\n\t\t\tif (hidden.val() !== \"\") \x7b\n\t\t\t\t_editor.code(hidden.val());\n\t\t\t\x7d\n\n\t\t\t// update hidden input with encoded value on different events\n\t\t\t_editor.on('materialnote.change', function(e, content, $editable) \x7b\n\t\t\t\thidden.val(replaceBadChars(content));\t\t\t\n\t\t\t\x7d);\n\n\t\t\t_editor.on('materialnote.paste', function(e) \x7b\n\t\t\t\thidden.val(replaceBadChars(_editor.code()));\t\t\t\n\t\t\t\x7d);\n\n\t\t\t// bit of a hack to stop the editor buttons from causing a refresh when clicked \n\t\t\t$('.note-toolbar').find('button, i, a').on('click', function(e) \x7b e.preventDefault(); \x7d);\n\t\t\x7d);\n\t</script>"

/-- `Richtext` (elements.go:142): writes the keys `"class"` and `"id"` into
the caller's attribute map, renders the editor target div with that map, and
stores the HTML-escaped field value in a hidden input. -/
def Richtext (fieldName : String) (p : GoStruct) (attrs : GoMap) :
    Except String (String × GoMap) := do
  let iso := "<div class=\"iso-texteditor input-field col s12\"><label>" ++ mapGet attrs "label" ++ "</label>"
  let isoClose := "</div>"
  let attrs := mapSet (mapSet attrs "class" ("richtext " ++ fieldName)) "id" ("richtext-" ++ fieldName)
  let div : element :=
    { TagName := "div", Attrs := attrs, Name := "", label := "", data := "" }
  let val := (valueFromStructField fieldName p).String
  let name ← tagNameFromStructField fieldName p
  let input := "<input type=\"hidden\" name=\"" ++ name ++ "\" class=\"richtext-value " ++ fieldName ++ "\" " ++ ("value=\"" ++ escapeString val ++ "\"/>")
  Except.ok (iso ++ domElement div ++ input ++ isoClose
    ++ richtextScript fieldName (mapGet attrs "placeholder"), attrs)

/-- The call-to-action `<option>` of `Select` (elements.go:252): disabled and
pre-selected. -/
def ctaOption : element :=
  { TagName := "option", Attrs := [("disabled", "true"), ("selected", "true")],
    Name := "", label := "", data := "Select an option..." }

/-- The selection-reset `<option>` of `Select` (elements.go:260): empty value,
displayed as "None". -/
def resetOption : element :=
  { TagName := "option", Attrs := [("value", "")],
    Name := "", label := "", data := "None" }

/-- One `<option>` of `Select`'s range loop (elements.go:269): value is the
map key, content the map value, and `selected="true"` is added exactly when
the key equals the field's current value. -/
def selectOption (fieldVal : String) (kv : String × String) : element :=
  { TagName := "option",
    Attrs := if kv.1 = fieldVal then mapSet [("value", kv.1)] "selected" "true"
             else [("value", kv.1)],
    Name := "", label := "", data := kv.2 }

/-- `Select` (elements.go:238): writes `"class"` into the caller's attribute
map, then renders a select with the call-to-action option, the "None"
option, and one option per entry of the options map. -/
def Select (fieldName : String) (p : GoStruct) (attrs options : GoMap) :
    Except String (String × GoMap) := do
  let fieldVal := (valueFromStructField fieldName p).String
  let attrs := mapSet attrs "class" "browser-default"
  let sel ← newElement "select" (mapGet attrs "label") fieldName p attrs
  let opts := [ctaOption, resetOption] ++ options.map (selectOption fieldVal)
  Except.ok (domElementWithChildrenSelect sel opts, attrs)

/-- One checkbox `<input>` of `Checkbox`'s range loop (elements.go:303): the
multi-value name `tag.i`, checked when the key is among the pre-checked
values. -/
def checkboxInput (fieldName : String) (p : GoStruct) (checked : List String)
    (i : Nat) (kv : String × String) : Except String element :=
  (tagNameFromStructFieldMulti fieldName i p).map (fun n =>
    { TagName := "input",
      Attrs :=
        (let base := [("type", "checkbox"), ("value", kv.1), ("id", dashed kv.2)]
         if checked.contains kv.1 then mapSet base "checked" "checked" else base),
      Name := n, label := kv.2, data := "" })

/-- The whole range loop of `Checkbox`, with `i` counting up from the given
start value. -/
def checkboxInputs (fieldName : String) (p : GoStruct) (checked : List String) :
    Nat → List (String × String) → Except String (List element)
  | _, [] => Except.ok []
  | i, kv :: rest => do
      let e ← checkboxInput fieldName p checked i kv
      let es ← checkboxInputs fieldName p checked (i + 1) rest
      Except.ok (e :: es)

/-- `Checkbox` (elements.go:292): writes `"class"` into the caller's
attribute map, builds the wrapper div with an empty field name, reads the
pre-checked `[]string`, and renders one checkbox per options entry. -/
def Checkbox (fieldName : String) (p : GoStruct) (attrs options : GoMap) :
    Except String (String × GoMap) := do
  let attrs := mapSet attrs "class" "input-field col s12"
  let div ← newElement "div" (mapGet attrs "label") "" p attrs
  let checked ← (valueFromStructField fieldName p).stringSlice
  let opts ← checkboxInputs fieldName p checked 0 options
  Except.ok (domElementWithChildrenCheckbox div opts, attrs)

/-- The opening raw string of `Tags` (elements.go:346). -/
def tagsHeader (name label : String) : String :=
  "\n\t<div class=\"input-field col s12 tags " ++ name ++ "\">\n\t\t<label class=\"active\">" ++ label ++ "</label>\n\t\t<div class=\"chips " ++ name ++ "\"></div>\n\t"

/-- One hidden input of `Tags`'s loop (elements.go:356); note the unquoted
`name=` attribute and the unescaped tag value, exactly as the source builds
them. -/
def tagsHiddenInput (tag tagName : String) : String :=
  "<input type=\"hidden\" class=\"tag-" ++ tag ++ "\" name=" ++ tagName ++ " " ++ ("value=\"" ++ tag ++ "\"/>")

/-- The whole loop of `Tags` (elements.go:354): the concatenated hidden
inputs and the `initial` list entries, with `i` counting up from the given
start value. -/
def tagsInputs (fieldName : String) (p : GoStruct) :
    Nat → List String → Except String (String × List String)
  | _, [] => Except.ok ("", [])
  | i, tag :: rest => do
      let tagName ← tagNameFromStructFieldMulti fieldName i p
      let (h, ini) ← tagsInputs fieldName p (i + 1) rest
      Except.ok (tagsHiddenInput tag tagName ++ h, ("\x7btag: " ++ tag ++ "\x7d") :: ini)

/-- The `script` raw string of `Tags` (elements.go:361), with
`strings.Join(initial, ",")` as a parameter. -/
def tagsScript (name initialJoined : String) : String :=
  "\n\t<script>\n\t\t$(function() \x7b\n\t\t\tvar tags = $('.tags." ++ name ++ "');\n\t\t\t$('.chips." ++ name ++ "').material_chip(\x7b\n\t\t\t\tdata: [" ++ initialJoined ++ "],\n\t\t\t\tplaceholder: 'Type and press \"Enter\" to add " ++ name ++ "'\n\t\t\t\x7d);\t\t\n\n\t\t\t// handle events specific to tags\n\t\t\tvar chips = tags.find('.chips');\n\t\t\t\n\t\t\tchips.on('chip.add', function(e, chip) \x7b\n\t\t\t\tvar input = $('<input>');\n\t\t\t\tinput.attr(\x7b\n\t\t\t\t\tclass: 'tag-'+chip.tag,\n\t\t\t\t\tname: '" ++ name ++ ".'+tags.find('input[type=hidden]').length-1,\n\t\t\t\t\tvalue: chip.tag,\n\t\t\t\t\ttype: 'hidden'\n\t\t\t\t\x7d);\n\t\t\t\t\n\t\t\t\ttags.append(input);\n\t\t\t\x7d);\n\n\t\t\tchips.on('chip.delete', function(e, chip) \x7b\n\t\t\t\tvar sel = '.tag-'+chip.tag;\n\t\t\t\tconsole.log(sel);\n\t\t\t\tconsole.log(chips.parent().find(sel));\t\t\t\t\n\t\t\t\tchips.parent().find(sel).remove();\n\t\t\t\x7d);\n\t\t\x7d);\n\t</script>\n\t"

/-- `Tags` (elements.go:339): the chips widget, with one hidden input per
saved tag named `tag.0`, `tag.1`, and so on. -/
def Tags (fieldName : String) (p : GoStruct) (attrs : GoMap) :
    Except String (String × GoMap) := do
  let name ← tagNameFromStructField fieldName p
  let tags ← (valueFromStructField fieldName p).stringSlice
  let (hiddenHTML, initial) ← tagsInputs fieldName p 0 tags
  let htmlStr := tagsHeader name (mapGet attrs "label") ++ hiddenHTML
  let script := tagsScript name (String.intercalate "," initial)
  Except.ok (htmlStr ++ "</div>" ++ script, attrs)

/-! Helper predicates over the embedding, used to state the claims. -/

/-- Whether `pat` occurs as a contiguous substring of `s`. -/
def occursIn (pat s : String) : Prop := pat.data <:+: s.data

instance decOccursIn (pat s : String) : Decidable (occursIn pat s) :=
  List.decidableInfix pat.data s.data

/-- Whether a call finished normally (`Except.ok`) rather than panicking. -/
def renderOk {α : Type} : Except String α → Bool
  | Except.ok _ => true
  | Except.error _ => false

/-- Whether the struct has a field of this name that carries a `json` tag. -/
def hasJsonTag (p : GoStruct) (name : String) : Bool :=
  match findField p name with
  | some f => f.jsonTag.isSome
  | none => false

/-- Whether the named field exists and holds an integer. -/
def isIntKindField (p : GoStruct) (name : String) : Bool :=
  match valueFromStructField name p with
  | GoValue.int _ => true
  | _ => false

/-- Whether the named field exists and holds a `[]string`. -/
def isStringSliceField (p : GoStruct) (name : String) : Bool :=
  match valueFromStructField name p with
  | GoValue.strList _ => true
  | _ => false

/-- The five characters `html.EscapeString` rewrites. -/
def isSpecialChar (c : Char) : Bool :=
  c == '&' || c == '\'' || c == '<' || c == '>' || c == '"'

/-! Facts about `escapeString` and decimal numerals. -/

theorem one_le_length_escapeChar (c : Char) : 1 ≤ (escapeChar c).length := by
  unfold escapeChar
  split_ifs <;> simp

theorem two_le_length_escapeChar (c : Char) (h : isSpecialChar c = true) :
    2 ≤ (escapeChar c).length := by
  unfold isSpecialChar at h
  simp only [Bool.or_eq_true, beq_iff_eq] at h
  unfold escapeChar
  split_ifs with h1 h2 h3 h4 h5
  · simp
  · simp
  · simp
  · simp
  · simp
  · rcases h with ((((h | h) | h) | h) | h) <;> contradiction

theorem escapeChar_of_not_special (c : Char) (h : isSpecialChar c = false) :
    escapeChar c = [c] := by
  unfold isSpecialChar at h
  simp only [Bool.or_eq_false_iff, beq_eq_false_iff_ne, ne_eq] at h
  unfold escapeChar
  split_ifs with h1 h2 h3 h4 h5
  · exact absurd h1 h.1.1.1.1
  · exact absurd h2 h.1.1.1.2
  · exact absurd h3 h.1.1.2
  · exact absurd h4 h.1.2
  · exact absurd h5 h.2
  · rfl

theorem length_le_length_flatten_escapeChar (l : List Char) :
    l.length ≤ ((l.map escapeChar).flatten).length := by
  induction l with
  | nil => simp
  | cons c t ih =>
      simp only [List.map_cons, List.flatten_cons, List.length_cons, List.length_append]
      have := one_le_length_escapeChar c
      omega

theorem length_lt_length_flatten_escapeChar (l : List Char)
    (h : l.any isSpecialChar = true) :
    l.length < ((l.map escapeChar).flatten).length := by
  induction l with
  | nil => simp at h
  | cons c t ih =>
      simp only [List.any_cons, Bool.or_eq_true] at h
      simp only [List.map_cons, List.flatten_cons, List.length_cons, List.length_append]
      rcases h with hc | ht
      · have h2 := two_le_length_escapeChar c hc
        have h3 := length_le_length_flatten_escapeChar t
        omega
      · have h1 := one_le_length_escapeChar c
        have h3 := ih ht
        omega

/-- A string containing any of the five special characters is changed by
`html.EscapeString`. -/
theorem escapeString_ne_of_special (s : String) (h : s.data.any isSpecialChar = true) :
    escapeString s ≠ s := by
  intro he
  have hd : (escapeString s).data = s.data := congrArg String.data he
  have hlen := length_lt_length_flatten_escapeChar s.data h
  have : (escapeString s).data = ((s.data.map escapeChar).flatten) := rfl
  rw [this] at hd
  rw [hd] at hlen
  omega

/-- `html.EscapeString` leaves a string without special characters alone. -/
theorem escapeString_of_no_special (s : String) (h : s.data.any isSpecialChar = false) :
    escapeString s = s := by
  obtain ⟨l⟩ := s
  show String.mk ((l.map escapeChar).flatten) = String.mk l
  have : ∀ t : List Char, t.any isSpecialChar = false → (t.map escapeChar).flatten = t := by
    intro t
    induction t with
    | nil => intro _; simp
    | cons c r ih =>
        intro ht
        simp only [List.any_cons, Bool.or_eq_false_iff] at ht
        simp only [List.map_cons, List.flatten_cons, ih ht.2,
          escapeChar_of_not_special c ht.1, List.cons_append, List.nil_append]
  exact congrArg String.mk (this l h)

theorem digitChar_isDigit (d : Nat) (hd : d < 10) : (Nat.digitChar d).isDigit = true := by
  interval_cases d <;> decide

theorem natDigitsGo_all_digit (fuel : Nat) :
    ∀ n, n ≤ fuel → ∀ c ∈ natDigitsGo n fuel, c.isDigit = true := by
  induction fuel with
  | zero =>
      intro n hn c hc
      have : n = 0 := by omega
      subst this
      simp only [natDigitsGo, List.mem_singleton] at hc
      subst hc
      exact digitChar_isDigit 0 (by omega)
  | succ fuel ih =>
      intro n hn c hc
      rw [natDigitsGo] at hc
      split at hc
      · simp only [List.mem_singleton] at hc
        subst hc
        exact digitChar_isDigit n (by omega)
      · rw [List.mem_append] at hc
        rcases hc with hc | hc
        · have hlt : n / 10 < n := Nat.div_lt_self (by omega) (by decide)
          exact ih (n / 10) (by omega) c hc
        · simp only [List.mem_singleton] at hc
          subst hc
          exact digitChar_isDigit (n % 10) (Nat.mod_lt _ (by omega))

theorem natDigits_all_digit (n : Nat) : ∀ c ∈ natDigits n, c.isDigit = true :=
  natDigitsGo_all_digit n n (Nat.le_refl n)

theorem not_special_of_digit (c : Char) (h : c.isDigit = true) : isSpecialChar c = false := by
  cases hs : isSpecialChar c
  · rfl
  · exfalso
    unfold isSpecialChar at hs
    simp only [Bool.or_eq_true, beq_iff_eq] at hs
    rcases hs with ((((hc | hc) | hc) | hc) | hc) <;> subst hc <;> exact absurd h (by decide)

/-- Decimal numerals contain no character touched by `html.EscapeString`. -/
theorem escapeString_intToDecimal (n : Int) : escapeString (intToDecimal n) = intToDecimal n := by
  apply escapeString_of_no_special
  rw [List.any_eq_false]
  intro c hc
  unfold intToDecimal at hc
  split at hc
  · rw [String.data_append] at hc
    rcases List.mem_append.mp hc with hc | hc
    · simp only [show ("-" : String).data = ['-'] from rfl, List.mem_singleton] at hc
      subst hc
      decide
    · simp [not_special_of_digit c (natDigits_all_digit _ c hc)]
  · simp [not_special_of_digit c (natDigits_all_digit _ c hc)]

/-! Which calls finish normally: the panic analysis behind the
error-handling claims. -/

theorem renderOk_tagName (name : String) (p : GoStruct) (h : name ≠ "") :
    renderOk (tagNameFromStructField name p) = hasJsonTag p name := by
  unfold tagNameFromStructField hasJsonTag
  rw [if_neg h]
  cases hf : findField p name with
  | none => rfl
  | some f => cases ht : f.jsonTag <;> simp [renderOk, ht, Option.isSome]

theorem tagName_empty (p : GoStruct) : tagNameFromStructField "" p = Except.ok "" := by
  unfold tagNameFromStructField
  rw [if_pos rfl]

theorem renderOk_Int_eq (name : String) (p : GoStruct) :
    renderOk (valueFromStructField name p).Int = isIntKindField p name := by
  unfold isIntKindField
  cases valueFromStructField name p <;> rfl

theorem renderOk_stringSlice_eq (name : String) (p : GoStruct) :
    renderOk (valueFromStructField name p).stringSlice = isStringSliceField p name := by
  unfold isStringSliceField
  cases valueFromStructField name p <;> rfl

theorem renderOk_newElement (tagName label fieldName : String) (p : GoStruct) (attrs : GoMap) :
    renderOk (newElement tagName label fieldName p attrs) =
      renderOk (tagNameFromStructField fieldName p) := by
  unfold newElement
  cases tagNameFromStructField fieldName p <;> rfl

theorem renderOk_Input (fieldName : String) (p : GoStruct) (attrs : GoMap) (h : fieldName ≠ "") :
    renderOk (Input fieldName p attrs) = hasJsonTag p fieldName := by
  rw [← renderOk_tagName fieldName p h]
  unfold Input
  cases ht : tagNameFromStructField fieldName p <;> simp [renderOk, newElement, ht, Except.map]

theorem renderOk_Textarea (fieldName : String) (p : GoStruct) (attrs : GoMap) (h : fieldName ≠ "") :
    renderOk (Textarea fieldName p attrs) = hasJsonTag p fieldName := by
  rw [← renderOk_tagName fieldName p h]
  unfold Textarea
  cases ht : tagNameFromStructField fieldName p <;> simp [renderOk, newElement, ht, Except.map]

theorem renderOk_File (fieldName : String) (p : GoStruct) (attrs : GoMap) (h : fieldName ≠ "") :
    renderOk (File fieldName p attrs) = hasJsonTag p fieldName := by
  rw [← renderOk_tagName fieldName p h]
  unfold File
  cases ht : tagNameFromStructField fieldName p <;>
    simp [renderOk, ht, Bind.bind, Except.bind]

theorem renderOk_Richtext (fieldName : String) (p : GoStruct) (attrs : GoMap) (h : fieldName ≠ "") :
    renderOk (Richtext fieldName p attrs) = hasJsonTag p fieldName := by
  rw [← renderOk_tagName fieldName p h]
  unfold Richtext
  cases ht : tagNameFromStructField fieldName p <;>
    simp [renderOk, ht, Bind.bind, Except.bind]

theorem renderOk_Select (fieldName : String) (p : GoStruct) (attrs options : GoMap)
    (h : fieldName ≠ "") :
    renderOk (Select fieldName p attrs options) = hasJsonTag p fieldName := by
  rw [← renderOk_tagName fieldName p h]
  unfold Select
  cases ht : tagNameFromStructField fieldName p <;>
    simp [renderOk, newElement, ht, Except.map, Bind.bind, Except.bind]

theorem renderOk_Timestamp (fieldName : String) (p : GoStruct) (attrs : GoMap)
    (h : fieldName ≠ "") :
    renderOk (Timestamp fieldName p attrs) =
      (isIntKindField p fieldName && hasJsonTag p fieldName) := by
  rw [← renderOk_tagName fieldName p h, ← renderOk_Int_eq fieldName p]
  unfold Timestamp
  cases hv : (valueFromStructField fieldName p).Int <;>
    cases ht : tagNameFromStructField fieldName p <;>
      simp [renderOk, hv, ht, Bind.bind, Except.bind]

theorem renderOk_checkboxInputs (fieldName : String) (p : GoStruct) (checked : List String)
    (i : Nat) (options : List (String × String)) :
    renderOk (checkboxInputs fieldName p checked i options) =
      (options.isEmpty || renderOk (tagNameFromStructField fieldName p)) := by
  induction options generalizing i with
  | nil => rfl
  | cons kv rest ih =>
      unfold checkboxInputs checkboxInput tagNameFromStructFieldMulti
      cases ht : tagNameFromStructField fieldName p with
      | error msg => simp [renderOk, ht, Except.map, Bind.bind, Except.bind]
      | ok tag =>
          have ihr := ih (i + 1)
          cases hr : checkboxInputs fieldName p checked (i + 1) rest with
          | error msg =>
              rw [hr, ht] at ihr
              simp [renderOk] at ihr
          | ok es => simp [renderOk, ht, hr, Except.map, Bind.bind, Except.bind]

theorem renderOk_Checkbox (fieldName : String) (p : GoStruct) (attrs options : GoMap)
    (h : fieldName ≠ "") :
    renderOk (Checkbox fieldName p attrs options) =
      (isStringSliceField p fieldName && (options.isEmpty || hasJsonTag p fieldName)) := by
  rw [← renderOk_tagName fieldName p h, ← renderOk_stringSlice_eq fieldName p]
  unfold Checkbox
  simp only [newElement, tagName_empty, Except.map, Bind.bind, Except.bind]
  cases hv : (valueFromStructField fieldName p).stringSlice with
  | error msg => simp [renderOk, hv, Bind.bind, Except.bind]
  | ok checked =>
      have hc := renderOk_checkboxInputs fieldName p checked 0 options
      cases hr : checkboxInputs fieldName p checked 0 options with
      | error msg =>
          rw [hr] at hc
          simp [renderOk, hv, hr, Bind.bind, Except.bind]
          simp [renderOk] at hc
          exact hc
      | ok es =>
          rw [hr] at hc
          simp [renderOk, hv, hr, Bind.bind, Except.bind]
          simp [renderOk] at hc
          exact hc

theorem tagsInputs_ok (fieldName : String) (p : GoStruct) (tag : String)
    (ht : tagNameFromStructField fieldName p = Except.ok tag) (i : Nat) (tags : List String) :
    renderOk (tagsInputs fieldName p i tags) = true := by
  induction tags generalizing i with
  | nil => rfl
  | cons t rest ih =>
      unfold tagsInputs tagNameFromStructFieldMulti
      have ihr := ih (i + 1)
      cases hr : tagsInputs fieldName p (i + 1) rest with
      | error msg => rw [hr] at ihr; exact absurd ihr (by simp [renderOk])
      | ok pr => simp [renderOk, ht, hr, Except.map, Bind.bind, Except.bind]

theorem renderOk_Tags (fieldName : String) (p : GoStruct) (attrs : GoMap)
    (h : fieldName ≠ "") :
    renderOk (Tags fieldName p attrs) =
      (hasJsonTag p fieldName && isStringSliceField p fieldName) := by
  rw [← renderOk_tagName fieldName p h, ← renderOk_stringSlice_eq fieldName p]
  unfold Tags
  cases ht : tagNameFromStructField fieldName p with
  | error msg => simp [renderOk, ht, Bind.bind, Except.bind]
  | ok tag =>
      cases hv : (valueFromStructField fieldName p).stringSlice with
      | error msg => simp [renderOk, ht, hv, Bind.bind, Except.bind]
      | ok tags =>
          have hti := tagsInputs_ok fieldName p tag ht 0 tags
          cases hr : tagsInputs fieldName p 0 tags with
          | error msg => rw [hr] at hti; exact absurd hti (by simp [renderOk])
          | ok pr => simp [renderOk, ht, hv, hr, Bind.bind, Except.bind]

/-! Decompositions of the DOM builders: where the name and value land in the
output bytes. -/

theorem selfClose_value (e : element) :
    ∃ a b, domElementSelfClose e = a ++ (" value=\"" ++ escapeString e.data ++ "\" ") ++ b := by
  refine ⟨"<div class=\"input-field col s12\">" ++
    (if e.label ≠ "" then
      "<label class=\"active\" for=\"" ++ dashed e.label ++ "\">" ++ e.label ++ "</label>"
    else "") ++ "<" ++ e.TagName,
    attrsHTML e.Attrs ++ (" name=\"" ++ e.Name ++ "\"") ++ " />" ++ "</div>", ?_⟩
  simp only [domElementSelfClose, String.append_assoc]

theorem selfClose_name (e : element) :
    ∃ a b, domElementSelfClose e = a ++ (" name=\"" ++ e.Name ++ "\"") ++ b := by
  refine ⟨"<div class=\"input-field col s12\">" ++
    (if e.label ≠ "" then
      "<label class=\"active\" for=\"" ++ dashed e.label ++ "\">" ++ e.label ++ "</label>"
    else "") ++ "<" ++ e.TagName ++ " value=\"" ++ (escapeString e.data ++ "\" ") ++
    attrsHTML e.Attrs, " />" ++ "</div>", ?_⟩
  simp only [domElementSelfClose, String.append_assoc]

theorem domElement_data (e : element) :
    ∃ a b, domElement e = a ++ (" >" ++ escapeString e.data ++ "</" ++ e.TagName ++ ">") ++ b := by
  refine ⟨"<div class=\"input-field col s12\">" ++
    (if e.label ≠ "" then
      "<label class=\"active\" for=\"" ++ dashed e.label ++ "\">" ++ e.label ++ "</label>"
    else "") ++ "<" ++ e.TagName ++ " " ++ attrsHTML e.Attrs ++
    (" name=\"" ++ e.Name ++ "\""), "</div>", ?_⟩
  simp only [domElement, String.append_assoc]

/-! Structure of the multi-value loops of `Checkbox` and `Tags`. -/

theorem stringJoin_cons (a : String) (l : List String) :
    String.join (a :: l) = a ++ String.join l := by
  simp [String.join_eq]
  rfl

theorem checkboxInput_eval (fieldName : String) (p : GoStruct) (tag : String)
    (ht : tagNameFromStructField fieldName p = Except.ok tag) (checked : List String)
    (i : Nat) (kv : String × String) :
    checkboxInput fieldName p checked i kv = Except.ok
      { TagName := "input",
        Attrs :=
          (let base := [("type", "checkbox"), ("value", kv.1), ("id", dashed kv.2)]
           if checked.contains kv.1 then mapSet base "checked" "checked" else base),
        Name := tag ++ "." ++ natToDecimal i, label := kv.2, data := "" } := by
  simp [checkboxInput, tagNameFromStructFieldMulti, ht, Except.map]

theorem checkboxInputs_names (fieldName : String) (p : GoStruct) (tag : String)
    (ht : tagNameFromStructField fieldName p = Except.ok tag) (checked : List String)
    (i0 : Nat) (options : List (String × String)) :
    ∃ es, checkboxInputs fieldName p checked i0 options = Except.ok es ∧
      es.length = options.length ∧
      ∀ j, (hj : j < es.length) →
        (es.get ⟨j, hj⟩).Name = tag ++ "." ++ natToDecimal (i0 + j) := by
  induction options generalizing i0 with
  | nil => exact ⟨[], rfl, rfl, fun j hj => absurd hj (by simp)⟩
  | cons kv rest ih =>
      obtain ⟨es, hes, hlen, hnames⟩ := ih (i0 + 1)
      refine ⟨element.mk "input"
          (let base := [("type", "checkbox"), ("value", kv.1), ("id", dashed kv.2)]
           if checked.contains kv.1 then mapSet base "checked" "checked" else base)
          (tag ++ "." ++ natToDecimal i0) kv.2 "" :: es,
        ?_, by simp [hlen], ?_⟩
      · simp [checkboxInputs, checkboxInput_eval fieldName p tag ht checked i0 kv, hes,
          Bind.bind, Except.bind]
      · intro j hj
        cases j with
        | zero => simp
        | succ k =>
            have hk : k < es.length := by
              simp only [List.length_cons] at hj
              omega
            have hrw : (i0 + 1) + k = i0 + (k + 1) := by omega
            simpa [hrw] using hnames k hk

/-- The loop of `Tags`, evaluated under a successful tag lookup: the hidden
inputs in order, the i-th named `tag.i`, and the `initial` JS list entries. -/
theorem tagsInputs_eval (fieldName : String) (p : GoStruct) (tag : String)
    (ht : tagNameFromStructField fieldName p = Except.ok tag)
    (i0 : Nat) (tags : List String) :
    tagsInputs fieldName p i0 tags = Except.ok
      (String.join ((tags.enumFrom i0).map
          (fun it => tagsHiddenInput it.2 (tag ++ "." ++ natToDecimal it.1))),
        tags.map (fun t => "\x7btag: " ++ t ++ "\x7d")) := by
  induction tags generalizing i0 with
  | nil => rfl
  | cons t rest ih =>
      simp [tagsInputs, tagNameFromStructFieldMulti, ht, ih (i0 + 1), Except.map,
        Bind.bind, Except.bind, List.enumFrom, stringJoin_cons]

/-! Concrete content structs used to instantiate and to refute claims. -/

/-- A struct with one string field `T`, json tag `t`, value `"x"`. -/
def exStrField : GoStruct := [{ name := "T", jsonTag := some "t", value := GoValue.str "x" }]

/-- A struct with one string field `T`, json tag `t`, value `"<"`. -/
def exLtField : GoStruct := [{ name := "T", jsonTag := some "t", value := GoValue.str "<" }]

/-- A struct with one `[]string` field `T`, json tag `t`, value `["a"]`. -/
def exListField : GoStruct :=
  [{ name := "T", jsonTag := some "t", value := GoValue.strList ["a"] }]

/-- A struct with one int64 field `T`, json tag `t`, value `7`. -/
def exIntField : GoStruct := [{ name := "T", jsonTag := some "t", value := GoValue.int 7 }]

/-! Where the current field value lands in each widget's output. -/

theorem tagName_of_findField (fieldName t : String) (v : GoValue) (p : GoStruct)
    (hne : fieldName ≠ "")
    (hf : findField p fieldName = some { name := fieldName, jsonTag := some t, value := v }) :
    tagNameFromStructField fieldName p = Except.ok t := by
  unfold tagNameFromStructField
  rw [if_neg hne, hf]

theorem value_of_findField (fieldName t : String) (v : GoValue) (p : GoStruct)
    (hf : findField p fieldName = some { name := fieldName, jsonTag := some t, value := v }) :
    valueFromStructField fieldName p = v := by
  unfold valueFromStructField
  rw [hf]

theorem Input_value_decomp (fieldName t v : String) (p : GoStruct) (attrs : GoMap)
    (hne : fieldName ≠ "")
    (hf : findField p fieldName =
      some { name := fieldName, jsonTag := some t, value := GoValue.str v }) :
    ∃ a b, (Input fieldName p attrs).map Prod.fst =
      Except.ok (a ++ (" value=\"" ++ escapeString v ++ "\" ") ++ b) := by
  have htag := tagName_of_findField fieldName t _ p hne hf
  have hv := value_of_findField fieldName t _ p hf
  have he : Input fieldName p attrs = Except.ok
      (domElementSelfClose (element.mk "input" attrs t (mapGet attrs "label") v), attrs) := by
    simp [Input, newElement, htag, hv, Except.map, GoValue.String]
  obtain ⟨a, b, hab⟩ :=
    selfClose_value (element.mk "input" attrs t (mapGet attrs "label") v)
  exact ⟨a, b, by rw [he]; simpa [Except.map] using hab⟩

theorem Textarea_value_decomp (fieldName t v : String) (p : GoStruct) (attrs : GoMap)
    (hne : fieldName ≠ "")
    (hf : findField p fieldName =
      some { name := fieldName, jsonTag := some t, value := GoValue.str v }) :
    ∃ a b, (Textarea fieldName p attrs).map Prod.fst =
      Except.ok (a ++ (" >" ++ escapeString v ++ "</" ++ "textarea" ++ ">") ++ b) := by
  have htag := tagName_of_findField fieldName t _ p hne hf
  have hv := value_of_findField fieldName t _ p hf
  have he : Textarea fieldName p attrs = Except.ok
      (domElement (element.mk "textarea" attrs t (mapGet attrs "label") v), attrs) := by
    simp [Textarea, newElement, htag, hv, Except.map, GoValue.String]
  obtain ⟨a, b, hab⟩ :=
    domElement_data (element.mk "textarea" attrs t (mapGet attrs "label") v)
  exact ⟨a, b, by rw [he]; simpa [Except.map] using hab⟩

theorem Richtext_value_decomp (fieldName t v : String) (p : GoStruct) (attrs : GoMap)
    (hne : fieldName ≠ "")
    (hf : findField p fieldName =
      some { name := fieldName, jsonTag := some t, value := GoValue.str v }) :
    ∃ a b, (Richtext fieldName p attrs).map Prod.fst =
      Except.ok (a ++ ("value=\"" ++ escapeString v ++ "\"/></div>") ++ b) := by
  have htag := tagName_of_findField fieldName t _ p hne hf
  have hv := value_of_findField fieldName t _ p hf
  refine ⟨"<div class=\"iso-texteditor input-field col s12\"><label>" ++ mapGet attrs "label"
      ++ "</label>"
      ++ domElement (element.mk "div"
          (mapSet (mapSet attrs "class" ("richtext " ++ fieldName)) "id"
            ("richtext-" ++ fieldName)) "" "" "")
      ++ "<input type=\"hidden\" name=\"" ++ t ++ "\" class=\"richtext-value "
      ++ fieldName ++ "\" ",
    richtextScript fieldName
      (mapGet (mapSet (mapSet attrs "class" ("richtext " ++ fieldName)) "id"
        ("richtext-" ++ fieldName)) "placeholder"), ?_⟩
  simp [Richtext, htag, hv, Except.map, Bind.bind, Except.bind, GoValue.String,
    String.append_assoc]

theorem fileTmpl_value (name label value : String) :
    ∃ a b, fileTmpl name label value = a ++ ("value=\"" ++ value ++ "\" />") ++ b := by
  refine ⟨"<div class=\"file-input " ++ name ++ " input-field col s12\">\n\t\t\t<label class=\"active\">" ++ label ++ "</label>\n\t\t\t<div class=\"file-field input-field\">\n\t\t\t\t<div class=\"btn\">\n\t\t\t\t\t<span>Upload</span>\n\t\t\t\t\t<input class=\"upload\" type=\"file\">\n\t\t\t\t</div>\n\t\t\t\t<div class=\"file-path-wrapper\">\n\t\t\t\t\t<input class=\"file-path validate\" placeholder=\"" ++ label ++ "\" type=\"text\">\n\t\t\t\t</div>\n\t\t\t</div>\n\t\t\t<div class=\"preview\"><div class=\"img-clip\"></div></div>\t\t\t\n\t\t\t<input class=\"store " ++ name ++ "\" type=\"hidden\" name=\"" ++ name ++ "\" ",
    "\n\t\t</div>", ?_⟩
  simp only [fileTmpl, String.append_assoc]

theorem File_value_decomp (fieldName t v : String) (p : GoStruct) (attrs : GoMap)
    (hne : fieldName ≠ "")
    (hf : findField p fieldName =
      some { name := fieldName, jsonTag := some t, value := GoValue.str v }) :
    ∃ a b, (File fieldName p attrs).map Prod.fst =
      Except.ok (a ++ ("value=\"" ++ v ++ "\" />") ++ b) := by
  have htag := tagName_of_findField fieldName t _ p hne hf
  have hv := value_of_findField fieldName t _ p hf
  have he : (File fieldName p attrs).map Prod.fst = Except.ok
      (fileTmpl t (mapGet attrs "label") v ++ fileScript t) := by
    simp [File, htag, hv, Except.map, Bind.bind, Except.bind, GoValue.String]
  obtain ⟨a, b, hab⟩ := fileTmpl_value t (mapGet attrs "label") v
  refine ⟨a, b ++ fileScript t, ?_⟩
  rw [he, hab]
  simp [String.append_assoc]

/-! The claims. -/

/-- C1, counterexample: the claim says a rendering call panics only when the
requested field or its json tag is missing, and always returns normally when
both are present. `Timestamp` refutes it: on a struct whose field `T` exists
and carries the json tag `t` but holds a string, `reflect.Value.Int` panics
although field and tag are both present. -/
theorem C1_counterexample :
    findField exStrField "T" =
      some { name := "T", jsonTag := some "t", value := GoValue.str "x" } ∧
    Timestamp "T" exStrField [] =
      Except.error "reflect: call of reflect.Value.Int on string Value" :=
  ⟨rfl, rfl⟩

/-- C1, amended: for a nonempty field name, `Input`, `Textarea`, `File`,
`Richtext` and `Select` finish normally exactly when the field exists and
carries a json tag; `Timestamp` additionally requires the field to hold an
integer; `Checkbox` and `Tags` additionally require it to hold a `[]string`,
and `Checkbox` skips the tag lookup entirely when its options map is empty.
Under the matching precondition every call returns normally. -/
theorem C1_panic_iff (fieldName : String) (p : GoStruct) (attrs options : GoMap)
    (h : fieldName ≠ "") :
    renderOk (Input fieldName p attrs) = hasJsonTag p fieldName ∧
    renderOk (Textarea fieldName p attrs) = hasJsonTag p fieldName ∧
    renderOk (File fieldName p attrs) = hasJsonTag p fieldName ∧
    renderOk (Richtext fieldName p attrs) = hasJsonTag p fieldName ∧
    renderOk (Select fieldName p attrs options) = hasJsonTag p fieldName ∧
    renderOk (Timestamp fieldName p attrs) =
      (isIntKindField p fieldName && hasJsonTag p fieldName) ∧
    renderOk (Checkbox fieldName p attrs options) =
      (isStringSliceField p fieldName && (options.isEmpty || hasJsonTag p fieldName)) ∧
    renderOk (Tags fieldName p attrs) =
      (hasJsonTag p fieldName && isStringSliceField p fieldName) :=
  ⟨renderOk_Input fieldName p attrs h, renderOk_Textarea fieldName p attrs h,
   renderOk_File fieldName p attrs h, renderOk_Richtext fieldName p attrs h,
   renderOk_Select fieldName p attrs options h, renderOk_Timestamp fieldName p attrs h,
   renderOk_Checkbox fieldName p attrs options h, renderOk_Tags fieldName p attrs h⟩

/-- C1, witness: the amended panic analysis evaluated on a concrete struct. -/
theorem C1_witness :
    renderOk (Input "T" exIntField []) = hasJsonTag exIntField "T" :=
  (C1_panic_iff "T" exIntField [] [] (by decide)).1

/-- C2: for a struct pointer whose element type has a field `fieldName` with
json tag `t`, `tagNameFromStructField` returns `t`, and the `Input` widget's
name attribute in the rendered bytes is exactly `t`. The field name is
nonempty, as every exported Go field name is. -/
theorem C2_tag_resolution (fieldName t : String) (v : GoValue) (p : GoStruct) (attrs : GoMap)
    (hne : fieldName ≠ "")
    (hf : findField p fieldName = some { name := fieldName, jsonTag := some t, value := v }) :
    tagNameFromStructField fieldName p = Except.ok t ∧
    ∃ out a b, Input fieldName p attrs = Except.ok (out, attrs) ∧
      out = a ++ (" name=\"" ++ t ++ "\"") ++ b := by
  have htag := tagName_of_findField fieldName t v p hne hf
  refine ⟨htag, ?_⟩
  have he : Input fieldName p attrs = Except.ok
      (domElementSelfClose (element.mk "input" attrs t (mapGet attrs "label")
        ((valueFromStructField fieldName p).String)), attrs) := by
    simp [Input, newElement, htag, Except.map]
  obtain ⟨a, b, hab⟩ := selfClose_name (element.mk "input" attrs t (mapGet attrs "label")
    ((valueFromStructField fieldName p).String))
  exact ⟨_, a, b, he, hab⟩

/-- C2, witness: the tag resolution evaluated on a concrete struct. -/
theorem C2_witness :
    tagNameFromStructField "T" exStrField = Except.ok "t" ∧
    ∃ out a b, Input "T" exStrField [] = Except.ok (out, []) ∧
      out = a ++ (" name=\"" ++ "t" ++ "\"") ++ b :=
  C2_tag_resolution "T" "t" (GoValue.str "x") exStrField [] (by decide) rfl

/-- C3: `tagNameFromStructFieldMulti` appends a dot and the decimal index to
the field's tag; the `Checkbox` loop gives its j-th input (in emission
order, from 0) the name `tag.j`, and the `Tags` loop emits its hidden inputs
in order with the i-th named `tag.i`. -/
theorem C3_multi_names (fieldName : String) (p : GoStruct) (tag : String) (i : Nat)
    (checked : List String) (options : List (String × String)) (tags : List String)
    (ht : tagNameFromStructField fieldName p = Except.ok tag) :
    tagNameFromStructFieldMulti fieldName i p = Except.ok (tag ++ "." ++ natToDecimal i) ∧
    (∃ es, checkboxInputs fieldName p checked 0 options = Except.ok es ∧
      es.length = options.length ∧
      ∀ j, (hj : j < es.length) →
        (es.get ⟨j, hj⟩).Name = tag ++ "." ++ natToDecimal j) ∧
    tagsInputs fieldName p 0 tags = Except.ok
      (String.join ((tags.enumFrom 0).map
          (fun it => tagsHiddenInput it.2 (tag ++ "." ++ natToDecimal it.1))),
        tags.map (fun s => "\x7btag: " ++ s ++ "\x7d")) := by
  refine ⟨by simp [tagNameFromStructFieldMulti, ht, Except.map], ?_,
    tagsInputs_eval fieldName p tag ht 0 tags⟩
  obtain ⟨es, h1, h2, h3⟩ := checkboxInputs_names fieldName p tag ht checked 0 options
  exact ⟨es, h1, h2, fun j hj => by simpa using h3 j hj⟩

/-- C3, witness: the multi-value name evaluated at index 2. -/
theorem C3_witness :
    tagNameFromStructFieldMulti "T" 2 exListField =
      Except.ok ("t" ++ "." ++ natToDecimal 2) :=
  (C3_multi_names "T" exListField "t" 2 [] [] [] rfl).1

/-- C4, counterexample: the claim says no call mutates the caller-supplied
attribute map. `Select` refutes it: called with an empty attribute map, it
leaves the key `"class"` set to `"browser-default"` in that map. -/
theorem C4_counterexample :
    (Select "T" exStrField [] []).map Prod.snd =
      Except.ok [("class", "browser-default")] ∧
    ([("class", "browser-default")] : GoMap) ≠ ([] : GoMap) :=
  ⟨rfl, by decide⟩

/-- C4, amended: `Input`, `Textarea`, `Timestamp`, `File` and `Tags` leave
the caller's attribute map unchanged, but `Richtext` writes the keys
`"class"` and `"id"` into it and `Select` and `Checkbox` write `"class"`;
the content struct and the options map are never written, and no state
persists across calls (each call is a pure function of its arguments). -/
theorem C4_mutation (fieldName : String) (p : GoStruct) (attrs options : GoMap) :
    (∀ out, Input fieldName p attrs = Except.ok out → out.2 = attrs) ∧
    (∀ out, Textarea fieldName p attrs = Except.ok out → out.2 = attrs) ∧
    (∀ out, Timestamp fieldName p attrs = Except.ok out → out.2 = attrs) ∧
    (∀ out, File fieldName p attrs = Except.ok out → out.2 = attrs) ∧
    (∀ out, Tags fieldName p attrs = Except.ok out → out.2 = attrs) ∧
    (∀ out, Richtext fieldName p attrs = Except.ok out →
      out.2 = mapSet (mapSet attrs "class" ("richtext " ++ fieldName)) "id"
        ("richtext-" ++ fieldName)) ∧
    (∀ out, Select fieldName p attrs options = Except.ok out →
      out.2 = mapSet attrs "class" "browser-default") ∧
    (∀ out, Checkbox fieldName p attrs options = Except.ok out →
      out.2 = mapSet attrs "class" "input-field col s12") := by
  refine ⟨?_, ?_, ?_, ?_, ?_, ?_, ?_, ?_⟩ <;> intro out hout
  · cases ht : tagNameFromStructField fieldName p <;>
      simp [Input, newElement, ht, Except.map] at hout <;> simp [← hout]
  · cases ht : tagNameFromStructField fieldName p <;>
      simp [Textarea, newElement, ht, Except.map] at hout <;> simp [← hout]
  · cases hv : (valueFromStructField fieldName p).Int <;>
      cases ht : tagNameFromStructField fieldName p <;>
        simp [Timestamp, hv, ht, Bind.bind, Except.bind] at hout <;> simp [← hout]
  · cases ht : tagNameFromStructField fieldName p <;>
      simp [File, ht, Bind.bind, Except.bind] at hout <;> simp [← hout]
  · cases ht : tagNameFromStructField fieldName p with
    | error m => simp [Tags, ht, Bind.bind, Except.bind] at hout
    | ok tag =>
        cases hv : (valueFromStructField fieldName p).stringSlice with
        | error m => simp [Tags, ht, hv, Bind.bind, Except.bind] at hout
        | ok tags =>
            cases hr : tagsInputs fieldName p 0 tags with
            | error m => simp [Tags, ht, hv, hr, Bind.bind, Except.bind] at hout
            | ok pr =>
                simp [Tags, ht, hv, hr, Bind.bind, Except.bind] at hout
                simp [← hout]
  · cases ht : tagNameFromStructField fieldName p <;>
      simp [Richtext, ht, Bind.bind, Except.bind] at hout <;> simp [← hout]
  · cases ht : tagNameFromStructField fieldName p <;>
      simp [Select, newElement, ht, Except.map, Bind.bind, Except.bind] at hout <;>
        simp [← hout]
  · cases hv : (valueFromStructField fieldName p).stringSlice with
    | error m =>
        simp [Checkbox, newElement, tagName_empty, hv, Except.map, Bind.bind,
          Except.bind] at hout
    | ok checked =>
        cases hr : checkboxInputs fieldName p checked 0 options with
        | error m =>
            simp [Checkbox, newElement, tagName_empty, hv, hr, Except.map, Bind.bind,
              Except.bind] at hout
        | ok es =>
            simp [Checkbox, newElement, tagName_empty, hv, hr, Except.map, Bind.bind,
              Except.bind] at hout
            simp [← hout]

/-- C4, witness: `Input` applied to a concrete struct hands the attribute map
back unchanged. -/
theorem C4_witness :
    (("<div class=\"input-field col s12\"><input value=\"x\"  name=\"t\" /></div>",
      ([] : GoMap)) : String × GoMap).2 = ([] : GoMap) :=
  (C4_mutation "T" exStrField [] []).1
    ("<div class=\"input-field col s12\"><input value=\"x\"  name=\"t\" /></div>", []) rfl

/-- C5, counterexample: the claim says two calls with the same attribute map
contents return identical bytes. Go iterates maps in unspecified order; with
the same two entries enumerated in the two possible orders, `Input` returns
different byte sequences. -/
theorem C5_counterexample :
    ([("a", "1"), ("b", "2")] : GoMap).Perm [("b", "2"), ("a", "1")] ∧
    (Input "T" exStrField [("a", "1"), ("b", "2")]).map Prod.fst =
      Except.ok "<div class=\"input-field col s12\"><input value=\"x\" a=\"1\" b=\"2\"  name=\"t\" /></div>" ∧
    (Input "T" exStrField [("b", "2"), ("a", "1")]).map Prod.fst =
      Except.ok "<div class=\"input-field col s12\"><input value=\"x\" b=\"2\" a=\"1\"  name=\"t\" /></div>" ∧
    ("<div class=\"input-field col s12\"><input value=\"x\" a=\"1\" b=\"2\"  name=\"t\" /></div>" : String) ≠
      "<div class=\"input-field col s12\"><input value=\"x\" b=\"2\" a=\"1\"  name=\"t\" /></div>" :=
  ⟨by decide, rfl, rfl, by decide⟩

/-- C5, amended: every rendering function is deterministic as a function of
its arguments with the maps taken as enumeration sequences — equal sequences
give identical bytes — but equal map contents alone (equal up to iteration
order) do not, because attribute and option order in the output follows the
map iteration order. -/
theorem C5_determinism (fieldName : String) (p : GoStruct)
    (attrs1 attrs2 options1 options2 : GoMap)
    (h1 : attrs1 = attrs2) (h2 : options1 = options2) :
    (Input fieldName p attrs1 = Input fieldName p attrs2 ∧
     Textarea fieldName p attrs1 = Textarea fieldName p attrs2 ∧
     Timestamp fieldName p attrs1 = Timestamp fieldName p attrs2 ∧
     File fieldName p attrs1 = File fieldName p attrs2 ∧
     Richtext fieldName p attrs1 = Richtext fieldName p attrs2 ∧
     Select fieldName p attrs1 options1 = Select fieldName p attrs2 options2 ∧
     Checkbox fieldName p attrs1 options1 = Checkbox fieldName p attrs2 options2 ∧
     Tags fieldName p attrs1 = Tags fieldName p attrs2) ∧
    ¬ (∀ (q : GoStruct) (m1 m2 : GoMap), m1.Perm m2 →
        (Input "T" q m1).map Prod.fst = (Input "T" q m2).map Prod.fst) := by
  subst h1
  subst h2
  refine ⟨⟨rfl, rfl, rfl, rfl, rfl, rfl, rfl, rfl⟩, ?_⟩
  intro hall
  have hinst := hall exStrField [("a", "1"), ("b", "2")] [("b", "2"), ("a", "1")] (by decide)
  rw [show (Input "T" exStrField [("a", "1"), ("b", "2")]).map Prod.fst =
      Except.ok "<div class=\"input-field col s12\"><input value=\"x\" a=\"1\" b=\"2\"  name=\"t\" /></div>" from rfl,
    show (Input "T" exStrField [("b", "2"), ("a", "1")]).map Prod.fst =
      Except.ok "<div class=\"input-field col s12\"><input value=\"x\" b=\"2\" a=\"1\"  name=\"t\" /></div>" from rfl] at hinst
  injection hinst with hs
  exact absurd hs (by decide)

/-- C5, witness: determinism for identical enumeration sequences, at a
concrete input. -/
theorem C5_witness : Input "T" exStrField [] = Input "T" exStrField [] :=
  (C5_determinism "T" exStrField [] [] [] [] rfl rfl).1.1

set_option maxRecDepth 40000 in
/-- C6, counterexample: the claim says the value embedded in the output
equals the current value of the struct field. For `Input` on a field holding
`"<"`, the embedded value is the escaped form `&lt;`, and the raw form
`value="<"` does not occur in the output bytes. -/
theorem C6_counterexample :
    valueFromStructField "T" exLtField = GoValue.str "<" ∧
    (Input "T" exLtField []).map Prod.fst =
      Except.ok "<div class=\"input-field col s12\"><input value=\"&lt;\"  name=\"t\" /></div>" ∧
    ¬ occursIn "value=\"<\""
      "<div class=\"input-field col s12\"><input value=\"&lt;\"  name=\"t\" /></div>" :=
  ⟨rfl, rfl, by decide⟩

/-- C6, amended: the value each widget embeds is derived from the struct
field at call time, but `Input`, `Textarea` and `Richtext` embed
`html.EscapeString` of the field's value (value attribute, element content,
and hidden-input value respectively), while `File` embeds the raw value;
`Timestamp` panics on string fields and is treated separately (C9). -/
theorem C6_value_embedding (fieldName t v : String) (p : GoStruct) (attrs : GoMap)
    (hne : fieldName ≠ "")
    (hf : findField p fieldName =
      some { name := fieldName, jsonTag := some t, value := GoValue.str v }) :
    (∃ a b, (Input fieldName p attrs).map Prod.fst =
      Except.ok (a ++ (" value=\"" ++ escapeString v ++ "\" ") ++ b)) ∧
    (∃ a b, (Textarea fieldName p attrs).map Prod.fst =
      Except.ok (a ++ (" >" ++ escapeString v ++ "</" ++ "textarea" ++ ">") ++ b)) ∧
    (∃ a b, (Richtext fieldName p attrs).map Prod.fst =
      Except.ok (a ++ ("value=\"" ++ escapeString v ++ "\"/></div>") ++ b)) ∧
    (∃ a b, (File fieldName p attrs).map Prod.fst =
      Except.ok (a ++ ("value=\"" ++ v ++ "\" />") ++ b)) :=
  ⟨Input_value_decomp fieldName t v p attrs hne hf,
   Textarea_value_decomp fieldName t v p attrs hne hf,
   Richtext_value_decomp fieldName t v p attrs hne hf,
   File_value_decomp fieldName t v p attrs hne hf⟩

/-- C6, witness: the embedded-value decomposition at a concrete struct. -/
theorem C6_witness :
    ∃ a b, (Input "T" exStrField []).map Prod.fst =
      Except.ok (a ++ (" value=\"" ++ escapeString "x" ++ "\" ") ++ b) :=
  (C6_value_embedding "T" "t" "x" exStrField [] (by decide) rfl).1

/-- C7: among the options-derived `<option>` elements of `Select`, the
`selected="true"` marker is present exactly for entries whose key equals the
field's current string value; `Select` renders the call-to-action and "None"
options before them regardless of the field's value, and those two options
render to fixed bytes (a disabled pre-selected prompt, and a "None" option
with empty value). -/
theorem C7_select_options (fieldName : String) (p : GoStruct) (attrs options : GoMap)
    (tag : String) (ht : tagNameFromStructField fieldName p = Except.ok tag) :
    (∀ kv : String × String,
      ("selected", "true") ∈ (selectOption ((valueFromStructField fieldName p).String) kv).Attrs
        ↔ kv.1 = (valueFromStructField fieldName p).String) ∧
    Select fieldName p attrs options = Except.ok
      (domElementWithChildrenSelect
        (element.mk "select" (mapSet attrs "class" "browser-default") tag
          (mapGet (mapSet attrs "class" "browser-default") "label")
          ((valueFromStructField fieldName p).String))
        ([ctaOption, resetOption] ++
          options.map (selectOption ((valueFromStructField fieldName p).String))),
        mapSet attrs "class" "browser-default") ∧
    (∃ a b, (Select fieldName p attrs options).map Prod.fst =
      Except.ok (a ++ (domElement ctaOption ++ domElement resetOption) ++ b)) ∧
    domElement ctaOption =
      "<div class=\"input-field col s12\"><option disabled=\"true\" selected=\"true\"  name=\"\" >Select an option...</option></div>" ∧
    domElement resetOption =
      "<div class=\"input-field col s12\"><option value=\"\"  name=\"\" >None</option></div>" := by
  have hsel : Select fieldName p attrs options = Except.ok
      (domElementWithChildrenSelect
        (element.mk "select" (mapSet attrs "class" "browser-default") tag
          (mapGet (mapSet attrs "class" "browser-default") "label")
          ((valueFromStructField fieldName p).String))
        ([ctaOption, resetOption] ++
          options.map (selectOption ((valueFromStructField fieldName p).String))),
        mapSet attrs "class" "browser-default") := by
    simp [Select, newElement, ht, Except.map, Bind.bind, Except.bind]
  refine ⟨?_, hsel, ?_, rfl, rfl⟩
  · intro kv
    unfold selectOption
    by_cases hk : kv.1 = (valueFromStructField fieldName p).String
    · simp [hk, mapSet]
    · simp [hk, mapSet]
  · refine ⟨"<div class=\"input-field col s6\">" ++
      ("<" ++ "select" ++ " ") ++ attrsHTML (mapSet attrs "class" "browser-default") ++
      (" name=\"" ++ tag ++ "\"") ++ " >",
      String.join ((options.map
        (selectOption ((valueFromStructField fieldName p).String))).map domElement) ++
      ("</" ++ "select" ++ ">") ++
      (if mapGet (mapSet attrs "class" "browser-default") "label" ≠ "" then
        "<label class=\"active\">" ++
          mapGet (mapSet attrs "class" "browser-default") "label" ++ "</label>"
      else "") ++ "</div>", ?_⟩
    rw [hsel]
    simp only [Except.map, domElementWithChildrenSelect, List.cons_append, List.nil_append,
      List.map_cons, stringJoin_cons, String.append_assoc]

/-- C7, witness: the call-to-action option's rendered bytes, via the theorem
at a concrete struct. -/
theorem C7_witness :
    domElement ctaOption =
      "<div class=\"input-field col s12\"><option disabled=\"true\" selected=\"true\"  name=\"\" >Select an option...</option></div>" :=
  (C7_select_options "T" exStrField [] [] "t" rfl).2.2.2.1

/-- C8: `Input`, `Textarea` and `Richtext` embed `html.EscapeString` of the
field's value, and for any value containing one of the five special
characters the escaped form differs from the raw string. -/
theorem C8_escaping (fieldName t v : String) (p : GoStruct) (attrs : GoMap)
    (hne : fieldName ≠ "")
    (hf : findField p fieldName =
      some { name := fieldName, jsonTag := some t, value := GoValue.str v })
    (hsp : v.data.any isSpecialChar = true) :
    escapeString v ≠ v ∧
    (∃ a b, (Input fieldName p attrs).map Prod.fst =
      Except.ok (a ++ (" value=\"" ++ escapeString v ++ "\" ") ++ b)) ∧
    (∃ a b, (Textarea fieldName p attrs).map Prod.fst =
      Except.ok (a ++ (" >" ++ escapeString v ++ "</" ++ "textarea" ++ ">") ++ b)) ∧
    (∃ a b, (Richtext fieldName p attrs).map Prod.fst =
      Except.ok (a ++ ("value=\"" ++ escapeString v ++ "\"/></div>") ++ b)) :=
  ⟨escapeString_ne_of_special v hsp,
   Input_value_decomp fieldName t v p attrs hne hf,
   Textarea_value_decomp fieldName t v p attrs hne hf,
   Richtext_value_decomp fieldName t v p attrs hne hf⟩

/-- C8, witness: escaping is not the identity on `"<"`. -/
theorem C8_witness : escapeString "<" ≠ "<" :=
  (C8_escaping "T" "t" "<" exLtField [] (by decide) rfl (by decide)).1

/-- C9: on an integer field, `Timestamp` renders the element with data `""`
when the field's value is 0 and with its decimal numeral otherwise, and the
value attribute in the output bytes is exactly that string (decimal numerals
are untouched by HTML escaping). -/
theorem C9_timestamp (fieldName t : String) (n : Int) (p : GoStruct) (attrs : GoMap)
    (hne : fieldName ≠ "")
    (hf : findField p fieldName =
      some { name := fieldName, jsonTag := some t, value := GoValue.int n }) :
    Timestamp fieldName p attrs = Except.ok
      (domElementSelfClose (element.mk "input" attrs t (mapGet attrs "label")
        (if n = 0 then "" else intToDecimal n)), attrs) ∧
    (∃ a b, (Timestamp fieldName p attrs).map Prod.fst =
      Except.ok (a ++ (" value=\"" ++ (if n = 0 then "" else intToDecimal n) ++ "\" ") ++ b)) := by
  have htag := tagName_of_findField fieldName t _ p hne hf
  have hv := value_of_findField fieldName t _ p hf
  have he : Timestamp fieldName p attrs = Except.ok
      (domElementSelfClose (element.mk "input" attrs t (mapGet attrs "label")
        (if n = 0 then "" else intToDecimal n)), attrs) := by
    simp [Timestamp, hv, htag, GoValue.Int, Bind.bind, Except.bind]
  have hesc : escapeString (if n = 0 then "" else intToDecimal n) =
      (if n = 0 then "" else intToDecimal n) := by
    split
    · rfl
    · exact escapeString_intToDecimal n
  obtain ⟨a, b, hab⟩ := selfClose_value (element.mk "input" attrs t (mapGet attrs "label")
    (if n = 0 then "" else intToDecimal n))
  rw [hesc] at hab
  exact ⟨he, a, b, by rw [he]; simpa [Except.map] using hab⟩

/-- C9, witness: the timestamp rendering at the concrete value 7. -/
theorem C9_witness :
    ∃ a b, (Timestamp "T" exIntField []).map Prod.fst =
      Except.ok (a ++ (" value=\"" ++ (if (7 : Int) = 0 then "" else intToDecimal 7) ++ "\" ") ++ b) :=
  (C9_timestamp "T" "t" 7 exIntField [] (by decide) rfl).2

set_option maxRecDepth 80000 in
/-- C10, counterexample: the claim says the `Checkbox` wrapper renders
`name=""`. The empty-name lookup indeed returns `""` without panicking, but
`domElementWithChildrenCheckbox` emits no name attribute at all for the
wrapper, so `name=""` does not occur anywhere in `Checkbox`'s output. -/
theorem C10_counterexample :
    tagNameFromStructField "" exListField = Except.ok "" ∧
    (Checkbox "T" exListField [] [("k", "v")]).map Prod.fst =
      Except.ok "<div class=\"input-field col s12\"  ><p class=\"col s6\"><input type=\"checkbox\" value=\"k\" id=\"v\"  name=\"t.0\" /> <label for=\"v\">v</label></p></div><div class=\"clear padding\">&nbsp;</div>" ∧
    ¬ occursIn "name=\"\""
      "<div class=\"input-field col s12\"  ><p class=\"col s6\"><input type=\"checkbox\" value=\"k\" id=\"v\"  name=\"t.0\" /> <label for=\"v\">v</label></p></div><div class=\"clear padding\">&nbsp;</div>" :=
  ⟨rfl, rfl, by decide⟩

/-- C10, amended: `tagNameFromStructField` with an empty name returns `""`
without inspecting the struct and without panicking, so `Checkbox`'s wrapper
construction never aborts on that lookup; the wrapper element's Name field is
the empty string, and `domElementWithChildrenCheckbox` renders independently
of the wrapper's Name, emitting no name attribute for it. -/
theorem C10_empty_name (p : GoStruct) (lbl : String) (attrs : GoMap) (e : element)
    (x y : String) (children : List element) :
    tagNameFromStructField "" p = Except.ok "" ∧
    newElement "div" lbl "" p attrs = Except.ok
      (element.mk "div" attrs "" lbl ((valueFromStructField "" p).String)) ∧
    domElementWithChildrenCheckbox (element.mk e.TagName e.Attrs x e.label e.data) children =
      domElementWithChildrenCheckbox (element.mk e.TagName e.Attrs y e.label e.data) children :=
  ⟨tagName_empty p, by simp [newElement, tagName_empty, Except.map], rfl⟩

/-- C10, witness: the empty-name lookup on a concrete struct. -/
theorem C10_witness : tagNameFromStructField "" exListField = Except.ok "" :=
  (C10_empty_name exListField "" [] (element.mk "div" [] "" "" "") "a" "b" []).1

end Ponzu
